import Mathlib

/-!
Shallow embedding of the weather-service core of the repository
(`src/services/ipma.service.ts`) and of the display rounding in
`src/components/atoms/TemperatureValue.ts`, together with theorems
settling the specification claims about them.

Modelling conventions:
* JavaScript numbers are modelled by `JSNum`: a finite rational, `NaN`,
  `+Infinity` or `-Infinity`.  Exact rational arithmetic stands in for
  IEEE-754 doubles; every concrete constant appearing in the claims
  (`-99.0`, `0.25`, coordinates) is exactly representable as a double,
  so the verdicts are insensitive to this choice.
* Arbitrary JavaScript runtime values (the `unknown` parameter of
  `toNumber` and the defensively-treated payload fields) are modelled by
  `JSVal`.
* `Number(string)` and the coercing global `isFinite` are ECMAScript
  builtins, not repository code; they are modelled here on the decimal
  fragment (whitespace trimming, empty string, optional sign, `Infinity`,
  decimal literals with optional fraction and exponent); other inputs
  map to `NaN`.
-/

namespace IpmaSpec

/-- Model of a JavaScript number: a finite rational or one of the
non-finite values `NaN`, `+Infinity`, `-Infinity`. -/
inductive JSNum where
  | finite (q : ℚ)
  | nan
  | posInf
  | negInf
  deriving DecidableEq, Repr

/-- Model of `Number.isFinite` on a JavaScript number. -/
def JSNum.isFinite : JSNum → Bool
  | .finite _ => true
  | _ => false

/-- Model of an arbitrary JavaScript runtime value (`unknown`), as far as
the service's `typeof` dispatch distinguishes them. -/
inductive JSVal where
  | num (n : JSNum)
  | str (s : String)
  | bool (b : Bool)
  | null
  | undefined
  | object
  deriving DecidableEq, Repr

/-- The JavaScript whitespace characters recognised by `Number(string)`
trimming (the ASCII ones plus NBSP; further Unicode space separators are
outside the modelled fragment). -/
def isJSSpace (c : Char) : Bool :=
  c = ' ' || c = '\t' || c = '\n' || c = '\r' || c = '\x0b' || c = '\x0c' || c = '\xa0'

/-- ASCII decimal digit test. -/
def isDigitChar (c : Char) : Bool :=
  '0' ≤ c && c ≤ '9'

/-- Numeric value of a decimal digit character. -/
def digitVal (c : Char) : ℕ :=
  c.toNat - '0'.toNat

/-- Value of a string of decimal digits. -/
def digitsToNat (ds : List Char) : ℕ :=
  ds.foldl (fun acc c => 10 * acc + digitVal c) 0

/-- Parse the optional exponent suffix of a decimal literal: the empty
remainder means exponent `0`; otherwise `e`/`E`, an optional sign and a
nonempty digit run consuming the whole remainder. -/
def parseExpPart : List Char → Option ℤ
  | [] => some 0
  | c :: rest =>
    if c = 'e' || c = 'E' then
      match rest with
      | '+' :: ds =>
        if !ds.isEmpty && ds.all isDigitChar then some (digitsToNat ds : ℤ) else none
      | '-' :: ds =>
        if !ds.isEmpty && ds.all isDigitChar then some (-(digitsToNat ds : ℤ)) else none
      | ds =>
        if !ds.isEmpty && ds.all isDigitChar then some (digitsToNat ds : ℤ) else none
    else none

/-- Parse an unsigned decimal literal (`digits`, `digits.digits`,
`.digits`, each with an optional exponent) into its exact rational
value. -/
def parseDecimalLit (cs : List Char) : Option ℚ :=
  let ip := cs.takeWhile isDigitChar
  let r1 := cs.dropWhile isDigitChar
  match r1 with
  | '.' :: r2 =>
    let fp := r2.takeWhile isDigitChar
    let r3 := r2.dropWhile isDigitChar
    if ip.isEmpty && fp.isEmpty then none
    else
      (parseExpPart r3).map (fun e =>
        ((digitsToNat ip : ℚ) + (digitsToNat fp : ℚ) / (10 : ℚ) ^ fp.length) * (10 : ℚ) ^ e)
  | _ =>
    if ip.isEmpty then none
    else (parseExpPart r1).map (fun e => (digitsToNat ip : ℚ) * (10 : ℚ) ^ e)

/-- Unsigned part of `Number(string)`: `Infinity`, or a decimal literal,
anything else being `NaN`. -/
def parseUnsignedJS (cs : List Char) : JSNum :=
  if cs = "Infinity".toList then .posInf
  else
    match parseDecimalLit cs with
    | some q => .finite q
    | none => .nan

/-- Strip leading and trailing JavaScript whitespace. -/
def jsTrim (cs : List Char) : List Char :=
  ((cs.dropWhile isJSSpace).reverse.dropWhile isJSSpace).reverse

/-- Model of the ECMAScript `Number(string)` conversion on the decimal
fragment: trim whitespace; the empty remainder yields `0`; an optional
sign is followed by `Infinity` or a decimal literal; anything else
yields `NaN`. -/
def jsStringToNumber (s : String) : JSNum :=
  match jsTrim s.toList with
  | [] => .finite 0
  | '+' :: rest => parseUnsignedJS rest
  | '-' :: rest =>
    match parseUnsignedJS rest with
    | .finite q => .finite (-q)
    | .posInf => .negInf
    | x => x
  | t => parseUnsignedJS t

/-- ECMAScript `ToNumber` on a runtime value, used by the coercing global
`isFinite`: numbers pass through, strings go through `Number(string)`,
booleans map to `0`/`1`, `null` to `0`, `undefined` and plain objects to
`NaN`. -/
def toJSNumber : JSVal → JSNum
  | .num j => j
  | .str s => jsStringToNumber s
  | .bool true => .finite 1
  | .bool false => .finite 0
  | .null => .finite 0
  | .undefined => .nan
  | .object => .nan

/-- The coercing global `isFinite` of JavaScript. -/
def jsIsFinite (v : JSVal) : Bool :=
  (toJSNumber v).isFinite

/-- JavaScript strict equality `v === r` between a runtime value and a
finite number literal: true exactly when `v` is a number strictly equal
to `r` (`NaN === r` is false). -/
def strictEqNum (v : JSVal) (r : ℚ) : Bool :=
  match v with
  | .num (.finite q) => q = r
  | _ => false

/-- Function `toNumber` from `src/services/ipma.service.ts` lines 24-31:
`typeof n === 'number' && isFinite(n)` returns the number; a string goes
through `Number` and is returned only when `Number.isFinite` holds; every
other value yields `null`.  The function is total: "never throws" is
modelled by totality. -/
def toNumber : JSVal → Option ℚ
  | .num j =>
    match j with
    | .finite q => some q
    | _ => none
  | .str s =>
    match jsStringToNumber s with
    | .finite q => some q
    | _ => none
  | _ => none

/-- JavaScript `Math.round` on exact rational semantics: the nearest
integer, ties rounding toward `+∞` (ECMA-262: `floor(x + 0.5)`). -/
def mathRound (q : ℚ) : ℤ :=
  ⌊q + 1 / 2⌋

/-- The display rounding of `TemperatureValue.ts` lines 37 and 75:
`Math.round(value * 10) / 10`. -/
def renderRounded (value : ℚ) : ℚ :=
  (mathRound (value * 10) : ℚ) / 10

/-- Modelled from the spec: "round to one decimal place using standard
round-half-away-from-zero on the scaled value" — the spec's rounding of
the scaled value, for comparison with the code's `mathRound`. -/
def roundHalfAwayFromZero (q : ℚ) : ℤ :=
  if 0 ≤ q then ⌊q + 1 / 2⌋ else -⌊-q + 1 / 2⌋

/-- JavaScript `Math.atan2` on real-number semantics (signed zeros and
`NaN` have no counterpart in `ℝ` and are outside the model). -/
noncomputable def atan2 (y x : ℝ) : ℝ :=
  if 0 < x then Real.arctan (y / x)
  else if x < 0 ∧ 0 ≤ y then Real.arctan (y / x) + Real.pi
  else if x < 0 ∧ y < 0 then Real.arctan (y / x) - Real.pi
  else if x = 0 ∧ 0 < y then Real.pi / 2
  else if x = 0 ∧ y < 0 then -(Real.pi / 2)
  else 0

/-- Function `calculateDistance` from `src/services/ipma.service.ts` lines 34-44:
the Haversine great-circle distance with Earth radius 6371 km, inputs in
decimal degrees. -/
noncomputable def calculateDistance (lat1 lon1 lat2 lon2 : ℝ) : ℝ :=
  let R : ℝ := 6371
  let dLat := (lat2 - lat1) * Real.pi / 180
  let dLon := (lon2 - lon1) * Real.pi / 180
  let a :=
    Real.sin (dLat / 2) * Real.sin (dLat / 2) +
      Real.cos (lat1 * Real.pi / 180) * Real.cos (lat2 * Real.pi / 180) *
        Real.sin (dLon / 2) * Real.sin (dLon / 2)
  let c := 2 * atan2 (Real.sqrt a) (Real.sqrt (1 - a))
  R * c

/-- The closed set of supported city names (`CityName` in
`src/interfaces/ipma.interface.ts`). -/
inductive CityName where
  | Lisboa
  | Porto
  | Coimbra
  deriving DecidableEq, Repr

/-- Constant `CITY_COORDINATES` from `src/services/ipma.service.ts` lines 18-22:
`[latitude, longitude]` per city. -/
noncomputable def CITY_COORDINATES : CityName → ℝ × ℝ
  | .Lisboa => (38.7223, -9.1393)
  | .Porto => (41.1579, -8.6291)
  | .Coimbra => (40.2033, -8.4103)

/-- The fields of `IPMAObservationProperties` read by the service:
`temperatura` (kept as a runtime value, since the service treats it
defensively with `toNumber`) and `time`.  The remaining payload fields
(`humidade`, `pressao`, station metadata, ...) are never read by the
service and are omitted. -/
structure IPMAObservationProperties where
  temperatura : JSVal
  time : String

/-- The `geometry` member of an observation feature; `coordinates` is the
`[longitude, latitude]` pair (in that order, as in the GeoJSON payload). -/
structure ObservationGeometry where
  coordinates : ℝ × ℝ

/-- Structure `IPMAObservationFeature`: one weather-station record of the
observation payload. -/
structure IPMAObservationFeature where
  geometry : ObservationGeometry
  properties : IPMAObservationProperties

/-- Structure `IPMAObservationResponse`: the parsed observation payload (the
constant `type: "FeatureCollection"` tag is omitted). -/
structure IPMAObservationResponse where
  features : List IPMAObservationFeature

/-- The validity test of `findClosestStation` lines 53-56, negated: a
station is kept when `temperatura === -99.0` is false AND the coercing
`isFinite(temperatura)` is true. -/
def stationValid (station : IPMAObservationFeature) : Bool :=
  !strictEqNum station.properties.temperatura (-99) && jsIsFinite station.properties.temperatura

/-- The distance computed at line 58: city coordinates are
`[latitude, longitude]`, station coordinates `[longitude, latitude]`. -/
noncomputable def stationDistance (city : CityName) (station : IPMAObservationFeature) : ℝ :=
  let (cityLat, cityLon) := CITY_COORDINATES city
  let (stationLon, stationLat) := station.geometry.coordinates
  calculateDistance cityLat cityLon stationLat stationLon

/-- One iteration of the scan of `findClosestStation` lines 51-63.  The
accumulator models the pair `(closestStation, minDistance)`: `none`
stands for the initial `(null, Infinity)`; since every computed distance
is a real number and hence `< Infinity`, the first valid station always
replaces the initial accumulator, exactly as in the source. -/
noncomputable def findClosestStep (city : CityName)
    (acc : Option (IPMAObservationFeature × ℝ)) (station : IPMAObservationFeature) :
    Option (IPMAObservationFeature × ℝ) :=
  if stationValid station then
    let distance := stationDistance city station
    match acc with
    | none => some (station, distance)
    | some (closest, minDistance) =>
      if distance < minDistance then some (station, distance) else some (closest, minDistance)
  else acc

/-- Function `findClosestStation` from `src/services/ipma.service.ts` lines 46-66:
sequential scan keeping the strictly closest valid station. -/
noncomputable def findClosestStation (city : CityName)
    (observations : List IPMAObservationFeature) : Option IPMAObservationFeature :=
  (observations.foldl (findClosestStep city) none).map Prod.fst

/-- Structure `CityTemperature` from `src/interfaces/ipma.interface.ts`:
`temperature` is `number | null`, `observedAt` an optional string. -/
structure CityTemperature where
  city : CityName
  temperature : Option ℚ
  observedAt : Option String := none
  deriving DecidableEq, Repr

/-- The initial default entry for a city: `{ city, temperature: null }`
with no `observedAt`. -/
def initEntry (c : CityName) : CityTemperature :=
  { city := c, temperature := none }

/-- The initial result record of `fetchCurrentTemps` lines 79-83, as an
association list with one entry per supported city. -/
def initResult : List (CityName × CityTemperature) :=
  [(.Lisboa, initEntry .Lisboa), (.Porto, initEntry .Porto), (.Coimbra, initEntry .Coimbra)]

/-- Record read `result[city]`. -/
def lookupCity (m : List (CityName × CityTemperature)) (c : CityName) : Option CityTemperature :=
  match m with
  | [] => none
  | (k, v) :: rest => if k = c then some v else lookupCity rest c

/-- Record update `result[city] = v`: replaces the value stored under an
existing key (all three keys are present from initialisation on, so the
record-assignment semantics is exactly value replacement at the key). -/
def setCity (m : List (CityName × CityTemperature)) (c : CityName) (v : CityTemperature) :
    List (CityName × CityTemperature) :=
  m.map (fun p => (p.1, if p.1 = c then v else p.2))

/-- The possible outcomes of the `fetch` collaborator as observed by
`fetchObservations`: the fetch itself rejects, or an HTTP response
arrives with an `ok` flag and a body whose JSON parse either fails
(`Except.error`, a malformed body) or yields a payload. -/
inductive FetchOutcome where
  | throws
  | response (ok : Bool) (body : Except Unit IPMAObservationResponse)

/-- Function `fetchObservations` from `src/services/ipma.service.ts` lines 68-74:
a rejected fetch propagates; `!res.ok` throws `HTTP <status>`; otherwise
the parsed body (or its parse failure) is returned.  All thrown errors
are collapsed to `Except.error ()` since the caller's `catch` ignores
the error value. -/
def fetchObservations : FetchOutcome → Except Unit IPMAObservationResponse
  | .throws => .error ()
  | .response ok body => if ok then body else .error ()

/-- The per-city body of the loop of `fetchCurrentTemps` lines 90-106:
resolve the closest valid station and store its temperature and time
when the normalised temperature is neither `null` nor `-99.0`.  The
inner `try/catch` has no effect in the model because every step is
total. -/
noncomputable def aggregateStep (features : List IPMAObservationFeature)
    (res : List (CityName × CityTemperature)) (city : CityName) :
    List (CityName × CityTemperature) :=
  match findClosestStation city features with
  | some closestStation =>
    match toNumber closestStation.properties.temperatura with
    | some temperature =>
      if temperature ≠ -99 then
        setCity res city
          { city := city, temperature := some temperature,
            observedAt := some closestStation.properties.time }
      else res
    | none => res
  | none => res

/-- Function `fetchCurrentTemps` from `src/services/ipma.service.ts` lines 76-112:
initialise every supported city to its default entry, fetch the
observations, and fill in the requested cities; any fetch failure is
caught silently, leaving all defaults.  Totality of this definition
models the "never throws" contract. -/
noncomputable def fetchCurrentTemps (fo : FetchOutcome) (cities : List CityName) :
    List (CityName × CityTemperature) :=
  match fetchObservations fo with
  | .error _ => initResult
  | .ok observations => cities.foldl (aggregateStep observations.features) initResult

/-! ### Helper lemmas -/

lemma atan2_pos_of_pos_of_nonneg (y x : ℝ) (hy : 0 < y) (hx : 0 ≤ x) : 0 < atan2 y x := by
  rcases hx.lt_or_eq with h | h
  · rw [atan2, if_pos h]
    have := Real.arctan_strictMono (div_pos hy h)
    simpa [Real.arctan_zero] using this
  · rw [atan2, if_neg (by rw [← h]; exact lt_irrefl 0),
      if_neg (by rw [← h]; exact fun hc => lt_irrefl 0 hc.1),
      if_neg (by rw [← h]; exact fun hc => lt_irrefl 0 hc.1),
      if_pos ⟨h.symm, hy⟩]
    positivity

lemma calculateDistance_self (lat lon : ℝ) : calculateDistance lat lon lat lon = 0 := by
  simp [calculateDistance, atan2, Real.arctan_zero]

lemma calculateDistance_pos_of_lon_lt (lat lon1 lon2 : ℝ)
    (h1 : -90 < lat) (h2 : lat < 90) (h3 : 0 < lon2 - lon1) (h4 : lon2 - lon1 < 360) :
    0 < calculateDistance lat lon1 lat lon2 := by
  have hπ := Real.pi_pos
  have hzero : (lat - lat) * Real.pi / 180 / 2 = 0 := by rw [sub_self]; ring
  have hcos : 0 < Real.cos (lat * Real.pi / 180) := by
    apply Real.cos_pos_of_mem_Ioo
    constructor
    · nlinarith
    · nlinarith
  have hsin : 0 < Real.sin ((lon2 - lon1) * Real.pi / 180 / 2) := by
    apply Real.sin_pos_of_pos_of_lt_pi
    · nlinarith
    · nlinarith
  have ha : 0 < Real.cos (lat * Real.pi / 180) * Real.cos (lat * Real.pi / 180) *
      Real.sin ((lon2 - lon1) * Real.pi / 180 / 2) *
      Real.sin ((lon2 - lon1) * Real.pi / 180 / 2) := by positivity
  have hat : 0 < atan2
      (Real.sqrt (Real.cos (lat * Real.pi / 180) * Real.cos (lat * Real.pi / 180) *
        Real.sin ((lon2 - lon1) * Real.pi / 180 / 2) *
        Real.sin ((lon2 - lon1) * Real.pi / 180 / 2)))
      (Real.sqrt (1 - Real.cos (lat * Real.pi / 180) * Real.cos (lat * Real.pi / 180) *
        Real.sin ((lon2 - lon1) * Real.pi / 180 / 2) *
        Real.sin ((lon2 - lon1) * Real.pi / 180 / 2))) :=
    atan2_pos_of_pos_of_nonneg _ _ (Real.sqrt_pos.mpr ha) (Real.sqrt_nonneg _)
  simp only [calculateDistance, hzero, Real.sin_zero, zero_mul, zero_add]
  nlinarith [hat]

lemma foldl_closest_inv (city : CityName) (l : List IPMAObservationFeature) :
    ∀ acc : Option (IPMAObservationFeature × ℝ),
      (∀ p, acc = some p → stationValid p.1 = true ∧ p.2 = stationDistance city p.1) →
      ∀ p, l.foldl (findClosestStep city) acc = some p →
        stationValid p.1 = true ∧ p.2 = stationDistance city p.1 := by
  induction l with
  | nil =>
    intro acc hacc p h
    exact hacc p (by simpa using h)
  | cons st rest ih =>
    intro acc hacc p h
    rw [List.foldl_cons] at h
    refine ih _ ?_ p h
    intro q hq
    unfold findClosestStep at hq
    by_cases hv : stationValid st = true
    · rw [if_pos hv] at hq
      cases acc with
      | none =>
        cases hq
        exact ⟨hv, rfl⟩
      | some pr =>
        obtain ⟨c0, m0⟩ := pr
        dsimp only at hq
        by_cases hlt : stationDistance city st < m0
        · rw [if_pos hlt] at hq
          cases hq
          exact ⟨hv, rfl⟩
        · rw [if_neg hlt] at hq
          cases hq
          exact hacc (c0, m0) rfl
    · rw [if_neg hv] at hq
      exact hacc q hq

lemma findClosestStation_eq_some (city : CityName) (l : List IPMAObservationFeature)
    (st : IPMAObservationFeature) (h : findClosestStation city l = some st) :
    ∃ m, l.foldl (findClosestStep city) none = some (st, m) := by
  unfold findClosestStation at h
  cases hfold : l.foldl (findClosestStep city) none with
  | none => rw [hfold] at h; cases h
  | some p =>
    rw [hfold] at h
    obtain ⟨s0, m0⟩ := p
    simp only [Option.map_some'] at h
    injection h with h
    exact ⟨m0, by rw [← h]⟩

lemma jsTrim_eq_nil (cs : List Char) (h : ∀ c ∈ cs, isJSSpace c) : jsTrim cs = [] := by
  unfold jsTrim
  rw [List.dropWhile_eq_nil_iff.mpr h]
  rfl

lemma jsStringToNumber_all_space (s : String) (h : ∀ c ∈ s.toList, isJSSpace c) :
    jsStringToNumber s = .finite 0 := by
  unfold jsStringToNumber
  rw [jsTrim_eq_nil _ h]

lemma lookup_setCity (m : List (CityName × CityTemperature)) (c : CityName)
    (v : CityTemperature) (c' : CityName) :
    lookupCity (setCity m c v) c' =
      (lookupCity m c').map (fun e => if c' = c then v else e) := by
  induction m with
  | nil => rfl
  | cons p rest ih =>
    obtain ⟨k, e⟩ := p
    by_cases hk : k = c'
    · subst hk
      by_cases hc : k = c
      · subst hc
        simp [setCity, lookupCity]
      · simp [setCity, lookupCity, hc]
    · simp only [setCity, List.map_cons, lookupCity, if_neg hk]
      simpa [setCity] using ih

lemma lookup_initResult (c : CityName) : lookupCity initResult c = some (initEntry c) := by
  cases c <;> rfl

lemma lookup_aggregateStep_ne (features : List IPMAObservationFeature)
    (res : List (CityName × CityTemperature)) (city c : CityName) (hne : c ≠ city) :
    lookupCity (aggregateStep features res city) c = lookupCity res c := by
  unfold aggregateStep
  cases findClosestStation city features with
  | none => rfl
  | some st =>
    dsimp only
    cases toNumber st.properties.temperatura with
    | none => rfl
    | some t =>
      dsimp only
      by_cases ht : t ≠ -99
      · rw [if_pos ht, lookup_setCity]
        cases lookupCity res c <;> simp [hne]
      · rw [if_neg ht]

lemma lookup_foldl_not_mem (features : List IPMAObservationFeature) (cities : List CityName) :
    ∀ (res : List (CityName × CityTemperature)) (c : CityName), c ∉ cities →
      lookupCity (cities.foldl (aggregateStep features) res) c = lookupCity res c := by
  induction cities with
  | nil => intro res c _; rfl
  | cons city rest ih =>
    intro res c hc
    rw [List.foldl_cons, ih _ c (fun h => hc (List.mem_cons_of_mem _ h)),
      lookup_aggregateStep_ne _ _ _ _ (fun h => hc (by rw [h]; exact List.mem_cons_self _ _))]

lemma isSome_lookup_aggregateStep (features : List IPMAObservationFeature)
    (res : List (CityName × CityTemperature)) (city c : CityName)
    (h : (lookupCity res c).isSome = true) :
    (lookupCity (aggregateStep features res city) c).isSome = true := by
  unfold aggregateStep
  cases findClosestStation city features with
  | none => exact h
  | some st =>
    dsimp only
    cases toNumber st.properties.temperatura with
    | none => exact h
    | some t =>
      dsimp only
      by_cases ht : t ≠ -99
      · rw [if_pos ht, lookup_setCity]
        cases hres : lookupCity res c with
        | none => rw [hres] at h; cases h
        | some e => simp [hres]
      · rw [if_neg ht]; exact h

lemma isSome_lookup_foldl (features : List IPMAObservationFeature) (cities : List CityName) :
    ∀ (res : List (CityName × CityTemperature)),
      (∀ c, (lookupCity res c).isSome = true) →
      ∀ c, (lookupCity (cities.foldl (aggregateStep features) res) c).isSome = true := by
  induction cities with
  | nil => intro res h c; exact h c
  | cons city rest ih =>
    intro res h c
    rw [List.foldl_cons]
    exact ih _ (fun c' => isSome_lookup_aggregateStep features res city c' (h c')) c

/-- The per-entry invariant of the aggregator's output: a null
temperature comes with no timestamp, and a non-null temperature is the
normalised reading of the single station selected by the resolver,
whose observation time is passed through. -/
def entryInv (features : List IPMAObservationFeature) (c : CityName) (e : CityTemperature) :
    Prop :=
  (e.temperature = none → e.observedAt = none) ∧
  ∀ t, e.temperature = some t →
    ∃ st, findClosestStation c features = some st ∧
      toNumber st.properties.temperatura = some t ∧
      e.observedAt = some st.properties.time

lemma entryInv_initResult (features : List IPMAObservationFeature) (c : CityName)
    (e : CityTemperature) (h : lookupCity initResult c = some e) : entryInv features c e := by
  rw [lookup_initResult] at h
  injection h with h
  subst h
  exact ⟨fun _ => rfl, fun t ht => by cases ht⟩

lemma entryInv_aggregateStep (features : List IPMAObservationFeature)
    (res : List (CityName × CityTemperature)) (city : CityName)
    (hres : ∀ c e, lookupCity res c = some e → entryInv features c e) :
    ∀ c e, lookupCity (aggregateStep features res city) c = some e → entryInv features c e := by
  intro c e he
  unfold aggregateStep at he
  cases hfind : findClosestStation city features with
  | none => rw [hfind] at he; exact hres c e he
  | some st =>
    rw [hfind] at he
    dsimp only at he
    cases htn : toNumber st.properties.temperatura with
    | none => rw [htn] at he; exact hres c e he
    | some t =>
      rw [htn] at he
      dsimp only at he
      by_cases ht : t ≠ -99
      · rw [if_pos ht, lookup_setCity] at he
        cases hres0 : lookupCity res c with
        | none => rw [hres0] at he; cases he
        | some e0 =>
          rw [hres0] at he
          simp only [Option.map_some'] at he
          injection he with he'
          by_cases hc : c = city
          · rw [if_pos hc] at he'
            subst he'
            subst hc
            refine ⟨fun hnone => ?_, fun t' ht' => ?_⟩
            · cases hnone
            · have : t = t' := by injection ht'
              subst this
              exact ⟨st, hfind, htn, rfl⟩
          · rw [if_neg hc] at he'
            subst he'
            exact hres c e0 hres0
      · rw [if_neg ht] at he
        exact hres c e he

lemma entryInv_foldl (features : List IPMAObservationFeature) (cities : List CityName) :
    ∀ (res : List (CityName × CityTemperature)),
      (∀ c e, lookupCity res c = some e → entryInv features c e) →
      ∀ c e, lookupCity (cities.foldl (aggregateStep features) res) c = some e →
        entryInv features c e := by
  induction cities with
  | nil => intro res h c e he; exact h c e he
  | cons city rest ih =>
    intro res h c e he
    rw [List.foldl_cons] at he
    exact ih _ (entryInv_aggregateStep features res city h) c e he

/-! ### Concrete witness data -/

/-- A station with a valid reading, used to exercise the resolver. -/
def witnessStation : IPMAObservationFeature :=
  { geometry := { coordinates := ((0 : ℝ), 0) },
    properties := { temperatura := .num (.finite 20), time := "2025-01-01T00:00:00" } }

/-- A valid station placed exactly at Lisboa's coordinates
(`[longitude, latitude]` order). -/
def stationAtLisboa : IPMAObservationFeature :=
  { geometry := { coordinates := ((-9.1393 : ℝ), 38.7223) },
    properties := { temperatura := .num (.finite 20), time := "2025-01-01T01:00:00" } }

/-- A valid station one degree of longitude east of Lisboa. -/
def stationEastOfLisboa : IPMAObservationFeature :=
  { geometry := { coordinates := ((-8.1393 : ℝ), 38.7223) },
    properties := { temperatura := .num (.finite 25), time := "2025-01-01T02:00:00" } }

/-- A valid station at an arbitrary fixed point. -/
def stationFirst : IPMAObservationFeature :=
  { geometry := { coordinates := ((1 : ℝ), 40) },
    properties := { temperatura := .num (.finite 10), time := "2025-01-01T03:00:00" } }

/-- A valid station at the same point as `stationFirst` but with a
different reading, to exercise the tie-break. -/
def stationSecond : IPMAObservationFeature :=
  { geometry := { coordinates := ((1 : ℝ), 40) },
    properties := { temperatura := .num (.finite 12), time := "2025-01-01T04:00:00" } }

/-! ### Claims -/

/-- C1: for every input list of requested city names, the record
returned by `fetchCurrentTemps` contains an entry for every supported
city name, and every supported city that was not requested maps to its
initial default state (temperature `null`, no `observedAt`). -/
theorem claim_C1_totality (fo : FetchOutcome) (cities : List CityName) (c : CityName) :
    (lookupCity (fetchCurrentTemps fo cities) c).isSome = true ∧
    (c ∉ cities → lookupCity (fetchCurrentTemps fo cities) c = some (initEntry c)) := by
  unfold fetchCurrentTemps
  cases fetchObservations fo with
  | error e => exact ⟨by rw [lookup_initResult]; rfl, fun _ => lookup_initResult c⟩
  | ok observations =>
    dsimp only
    constructor
    · exact isSome_lookup_foldl observations.features cities initResult
        (fun c' => by rw [lookup_initResult]; rfl) c
    · intro hc
      rw [lookup_foldl_not_mem observations.features cities initResult c hc]
      exact lookup_initResult c

theorem claim_C1_totality_witness :
    CityName.Porto ∉ [CityName.Lisboa] ∧
    lookupCity (fetchCurrentTemps .throws [CityName.Lisboa]) CityName.Porto =
      some (initEntry CityName.Porto) :=
  ⟨by decide, (claim_C1_totality .throws [CityName.Lisboa] CityName.Porto).2 (by decide)⟩

/-- C2: if the top-level observation fetch fails (the fetch collaborator
throws, the HTTP response is non-ok, or the body is malformed),
`fetchCurrentTemps` returns the full default map, every supported city
having temperature `null`; totality of the model expresses that no
exception escapes. -/
theorem claim_C2_fetch_failure (fo : FetchOutcome) (cities : List CityName) (c : CityName)
    (h : fo = .throws ∨ (∃ body, fo = .response false body) ∨
      fo = .response true (.error ())) :
    lookupCity (fetchCurrentTemps fo cities) c = some (initEntry c) := by
  have herr : fetchObservations fo = .error () := by
    rcases h with h | ⟨body, h⟩ | h <;> subst h <;> rfl
  unfold fetchCurrentTemps
  rw [herr]
  exact lookup_initResult c

theorem claim_C2_fetch_failure_witness :
    lookupCity (fetchCurrentTemps .throws [CityName.Lisboa, CityName.Porto, CityName.Coimbra])
      CityName.Lisboa = some (initEntry CityName.Lisboa) :=
  claim_C2_fetch_failure .throws _ CityName.Lisboa (Or.inl rfl)

/-- C3: a candidate whose raw `properties.temperatura` equals the
sentinel `-99.0`, or is not finite (under the coercing `isFinite`), is
never the candidate returned by `findClosestStation`, regardless of its
distance to the target. -/
theorem claim_C3_sentinel_exclusion (city : CityName)
    (observations : List IPMAObservationFeature) (st : IPMAObservationFeature)
    (h : findClosestStation city observations = some st) :
    ¬(st.properties.temperatura = JSVal.num (.finite (-99)) ∨
      jsIsFinite st.properties.temperatura = false) := by
  obtain ⟨m, hm⟩ := findClosestStation_eq_some city observations st h
  have hv := (foldl_closest_inv city observations none (fun p hp => by cases hp) (st, m) hm).1
  rintro (hsent | hfin)
  · rw [stationValid, hsent] at hv
    simp [strictEqNum] at hv
  · rw [stationValid, hfin] at hv
    simp at hv

theorem claim_C3_sentinel_exclusion_witness :
    ¬(witnessStation.properties.temperatura = JSVal.num (.finite (-99)) ∨
      jsIsFinite witnessStation.properties.temperatura = false) :=
  claim_C3_sentinel_exclusion .Lisboa [witnessStation] witnessStation rfl

/-- C4: for every target city and two valid candidates at distances
`d1 < d2` from the target, `findClosestStation` on the two-element list
(in either order) returns the candidate at distance `d1`. -/
theorem claim_C4_nearest_selection (city : CityName) (s1 s2 : IPMAObservationFeature)
    (h1 : stationValid s1 = true) (h2 : stationValid s2 = true)
    (hd : stationDistance city s1 < stationDistance city s2) :
    findClosestStation city [s1, s2] = some s1 ∧
    findClosestStation city [s2, s1] = some s1 := by
  constructor
  · unfold findClosestStation
    rw [List.foldl_cons, List.foldl_cons, List.foldl_nil]
    unfold findClosestStep
    rw [if_pos h1, if_pos h2]
    dsimp only
    rw [if_neg (lt_asymm hd)]
    rfl
  · unfold findClosestStation
    rw [List.foldl_cons, List.foldl_cons, List.foldl_nil]
    unfold findClosestStep
    rw [if_pos h2, if_pos h1]
    dsimp only
    rw [if_pos hd]
    rfl

theorem claim_C4_nearest_selection_witness :
    findClosestStation .Lisboa [stationAtLisboa, stationEastOfLisboa] = some stationAtLisboa ∧
    findClosestStation .Lisboa [stationEastOfLisboa, stationAtLisboa] = some stationAtLisboa :=
  claim_C4_nearest_selection .Lisboa stationAtLisboa stationEastOfLisboa rfl rfl
    (by
      have h0 : stationDistance .Lisboa stationAtLisboa = 0 := by
        unfold stationDistance CITY_COORDINATES stationAtLisboa
        exact calculateDistance_self 38.7223 (-9.1393)
      have hpos : 0 < stationDistance .Lisboa stationEastOfLisboa := by
        unfold stationDistance CITY_COORDINATES stationEastOfLisboa
        exact calculateDistance_pos_of_lon_lt 38.7223 (-9.1393) (-8.1393)
          (by norm_num) (by norm_num) (by norm_num) (by norm_num)
      rw [h0]
      exact hpos)

/-- C5: a later candidate at exactly the distance of the currently
selected station never replaces it (the comparison is strict), so among
equal-minimal-distance valid candidates the first in input order wins. -/
theorem claim_C5_tie_break (city : CityName) (l : List IPMAObservationFeature)
    (s s' : IPMAObservationFeature)
    (h : findClosestStation city l = some s)
    (hv : stationValid s' = true)
    (hd : stationDistance city s' = stationDistance city s) :
    findClosestStation city (l ++ [s']) = some s := by
  obtain ⟨m, hm⟩ := findClosestStation_eq_some city l s h
  have hm2 : m = stationDistance city s :=
    (foldl_closest_inv city l none (fun p hp => by cases hp) (s, m) hm).2
  unfold findClosestStation
  rw [List.foldl_append, hm, List.foldl_cons, List.foldl_nil]
  unfold findClosestStep
  rw [if_pos hv]
  dsimp only
  rw [if_neg (by rw [hd, hm2]; exact lt_irrefl _)]
  rfl

theorem claim_C5_tie_break_witness :
    findClosestStation .Porto [stationFirst, stationSecond] = some stationFirst :=
  claim_C5_tie_break .Porto [stationFirst] stationFirst stationSecond rfl rfl rfl

/-- C6: every entry produced by `fetchCurrentTemps` has no `observedAt`
when its temperature is `null`, and otherwise carries exactly the
normalised `temperatura` and the `time` of the single station selected
by the resolver for that city. -/
theorem claim_C6_entry_invariant (fo : FetchOutcome) (cities : List CityName)
    (c : CityName) (e : CityTemperature)
    (h : lookupCity (fetchCurrentTemps fo cities) c = some e) :
    (e.temperature = none → e.observedAt = none) ∧
    (∀ t, e.temperature = some t →
      ∃ observations st, fetchObservations fo = .ok observations ∧
        findClosestStation c observations.features = some st ∧
        toNumber st.properties.temperatura = some t ∧
        e.observedAt = some st.properties.time) := by
  unfold fetchCurrentTemps at h
  cases hobs : fetchObservations fo with
  | error err =>
    rw [hobs] at h
    dsimp only at h
    rw [lookup_initResult] at h
    injection h with h
    subst h
    exact ⟨fun _ => rfl, fun t ht => by cases ht⟩
  | ok observations =>
    rw [hobs] at h
    dsimp only at h
    have := entryInv_foldl observations.features cities initResult
      (entryInv_initResult observations.features) c e h
    exact ⟨this.1, fun t ht =>
      (this.2 t ht).elim fun st hst => ⟨observations, st, rfl, hst.1, hst.2.1, hst.2.2⟩⟩

theorem claim_C6_entry_invariant_witness :
    (initEntry CityName.Lisboa).observedAt = none :=
  (claim_C6_entry_invariant .throws [] CityName.Lisboa (initEntry CityName.Lisboa) rfl).1 rfl

/-- C7: the normalizer `toNumber` returns a finite number unchanged,
maps `NaN` and the infinities to `null`, maps a string to its parsed
numeric value exactly when that parse is finite, and maps every other
input type (booleans, `null`, `undefined`, objects) to `null`; totality
of the model expresses that it never throws. -/
theorem claim_C7_normalizer :
    (∀ q : ℚ, toNumber (.num (.finite q)) = some q) ∧
    toNumber (.num .nan) = none ∧
    toNumber (.num .posInf) = none ∧
    toNumber (.num .negInf) = none ∧
    (∀ s q, jsStringToNumber s = .finite q → toNumber (.str s) = some q) ∧
    (∀ s, (jsStringToNumber s).isFinite = false → toNumber (.str s) = none) ∧
    (∀ b, toNumber (.bool b) = none) ∧
    toNumber .null = none ∧
    toNumber .undefined = none ∧
    toNumber .object = none := by
  refine ⟨fun q => rfl, rfl, rfl, rfl, ?_, ?_, fun b => rfl, rfl, rfl, rfl⟩
  · intro s q hq
    unfold toNumber
    dsimp only
    rw [hq]
  · intro s hs
    unfold toNumber
    dsimp only
    cases hq : jsStringToNumber s with
    | finite q => rw [hq] at hs; simp [JSNum.isFinite] at hs
    | nan => rfl
    | posInf => rfl
    | negInf => rfl

theorem claim_C7_normalizer_witness :
    toNumber (.num (.finite 5)) = some 5 ∧
    toNumber (.str "") = some 0 ∧
    toNumber (.str "abc") = none ∧
    toNumber (.bool true) = none :=
  ⟨claim_C7_normalizer.1 5,
   claim_C7_normalizer.2.2.2.2.1 "" 0 (by decide),
   claim_C7_normalizer.2.2.2.2.2.1 "abc" (by decide),
   claim_C7_normalizer.2.2.2.2.2.2.1 true⟩

/-- C8 (amended): the display rounding `Math.round(value * 10) / 10`
produces the multiple of one tenth nearest to the value, with a tie
(distance exactly `1/20`) rounding toward `+∞` — NOT away from zero as
the claim states; for nonnegative values the two policies agree. -/
theorem claim_C8_display_rounding (v : ℚ) :
    (∃ n : ℤ, renderRounded v = (n : ℚ) / 10) ∧
    |renderRounded v - v| ≤ 1 / 20 ∧
    (|renderRounded v - v| = 1 / 20 → v < renderRounded v) := by
  have h1 : (⌊v * 10 + 1 / 2⌋ : ℚ) ≤ v * 10 + 1 / 2 := Int.floor_le _
  have h2 : v * 10 + 1 / 2 < ⌊v * 10 + 1 / 2⌋ + 1 := Int.lt_floor_add_one _
  have hrr : renderRounded v = ((⌊v * 10 + 1 / 2⌋ : ℤ) : ℚ) / 10 := rfl
  refine ⟨⟨⌊v * 10 + 1 / 2⌋, hrr⟩, ?_, ?_⟩
  · rw [hrr, abs_le]
    constructor <;> [linarith; linarith]
  · intro habs
    rw [hrr] at habs ⊢
    rcases (abs_eq (by norm_num : (0 : ℚ) ≤ 1 / 20)).mp habs with h | h
    · linarith
    · linarith

/-- C8 counterexample: at the finite value `-0.25` the code rounds to
`-0.2` (half toward `+∞`) while round-half-away-from-zero on the scaled
value gives `-0.3`. -/
theorem claim_C8_counterexample :
    renderRounded (-1 / 4) ≠ (roundHalfAwayFromZero ((-1 / 4) * 10) : ℚ) / 10 := by
  norm_num [renderRounded, mathRound, roundHalfAwayFromZero]

theorem claim_C8_display_rounding_witness : (1 / 20 : ℚ) < renderRounded (1 / 20) :=
  (claim_C8_display_rounding (1 / 20)).2.2 (by
    rw [show renderRounded (1 / 20 : ℚ) = 1 / 10 from by norm_num [renderRounded, mathRound]]
    norm_num)

/-- C9: the Haversine distance between two identical points is exactly
zero. -/
theorem claim_C9_distance_self (lat lon : ℝ) : calculateDistance lat lon lat lon = 0 :=
  calculateDistance_self lat lon

/-- C10: the normalizer maps the empty string and every whitespace-only
string to `0` (a valid reading of zero), not to `null`, because the
numeric parse of an empty/trimmed-empty string is `0`, which is
finite. -/
theorem claim_C10_empty_string_zero :
    toNumber (.str "") = some 0 ∧
    (∀ s : String, s.toList.all isJSSpace = true → toNumber (.str s) = some 0) := by
  constructor
  · rfl
  · intro s hs
    have hnum : jsStringToNumber s = .finite 0 :=
      jsStringToNumber_all_space s (by simpa using List.all_eq_true.mp hs)
    unfold toNumber
    dsimp only
    rw [hnum]

theorem claim_C10_empty_string_zero_witness :
    " ".toList.all isJSSpace = true ∧ toNumber (.str " ") = some 0 :=
  ⟨by decide, claim_C10_empty_string_zero.2 " " (by decide)⟩

end IpmaSpec
